import Mathlib

/-!
A shallow embedding of `src/analyze_image.py` (the single source file of the
repository): a script that uploads one image to object storage, requests label
detection from a vision service, reduces the response to name/confidence pairs,
and attempts to write a record to a key-value table.

External services (S3, Rekognition, DynamoDB) are modelled as events recorded
in a trace; their responses come from an oracle in the environment, and the
remote calls themselves are modelled as succeeding (the spec says remote
failures propagate unmodified and are out of scope).  Python runtime errors
(`NameError`, `KeyError`, `FileNotFoundError`) are modelled explicitly with
`Except`, since several claims are about them.
-/

deriving instance DecidableEq for Except

namespace AnalyzeImage

/-- One label of the raw Rekognition response.  `Confidence` is optional
because the reduction step's behaviour on an absent field is claimed about;
its numeric value is abstracted as a rational. -/
structure RawLabel where
  Name : String
  Confidence : Option ℚ
deriving DecidableEq

/-- The vision-service response: the `Labels` list (the richer per-label
fields are never persisted and no claim depends on their content). -/
structure RekResponse where
  Labels : List RawLabel
deriving DecidableEq

/-- A Python numeric value, tagged by representation: a binary float passed
through unchanged, or an exact decimal (`decimal.Decimal`).  The source file
never constructs a decimal; the constructor exists so claims about decimal
conversion can be stated. -/
inductive PyNum where
  | float (value : ℚ)
  | decimal (digits : String)
deriving DecidableEq

/-- Whether a numeric value is an exact decimal rather than a binary float. -/
def PyNum.isDecimal : PyNum → Bool
  | .float _ => false
  | .decimal _ => true

/-- One reduced label, as built by the comprehension at lines 121-124. -/
structure FmtLabel where
  Name : String
  Confidence : PyNum
deriving DecidableEq

/-- The Python runtime errors the script can raise. -/
inductive PyError where
  | nameError (n : String)
  | keyError (k : String)
  | fileNotFoundError (path : String)
deriving DecidableEq

/-- The value of `datetime.utcnow()` at write time; `iso` is the result of
its `.isoformat()`. -/
structure UTCTime where
  iso : String
deriving DecidableEq

/-- The item dictionary built at lines 36-41 of `write_to_dynamodb`.
`branch` is optional because Python may pass `None` through. -/
structure Item where
  filename : String
  labels : List FmtLabel
  timestamp : String
  branch : Option String
deriving DecidableEq

/-- Observable interactions of one run: network calls and prints. -/
inductive Event where
  | rekognitionDetect (photo : String) (bucket : Option String) (maxLabels : ℕ)
  | printLabelsDetected (resp : RekResponse)
  | s3Upload (path : String) (bucket : Option String) (key : String)
  | dynamoResource
  | putItem (table : Option String) (item : Item)
  | print (s : String)
deriving DecidableEq

/-- Whether an event is the table write (`put_item`). -/
def Event.isPutItem : Event → Bool
  | .putItem _ _ => true
  | _ => false

/-- Whether an event is a network call (upload, detection, or table write). -/
def Event.isNetwork : Event → Bool
  | .rekognitionDetect _ _ _ => true
  | .s3Upload _ _ _ => true
  | .putItem _ _ => true
  | _ => false

/-- Whether an event is a vision-service invocation. -/
def Event.isDetect : Event → Bool
  | .rekognitionDetect _ _ _ => true
  | _ => false

/-- True on non-upload events; on an upload event, true exactly when the
bucket argument is null (Python `None`). -/
def Event.uploadsNullBucket : Event → Bool
  | .s3Upload _ b _ => b.isNone
  | _ => true

/-- Whether an event is the final success print of line 129. -/
def Event.isSuccessPrint : Event → Bool
  | .print s => "Successfully processed".data.isPrefixOf s.data
  | _ => false

/-- How a run ends: a `sys.exit`/normal end with a code, or an uncaught
Python exception (a non-zero process status). -/
inductive Outcome where
  | exited (code : ℕ)
  | crashed (e : PyError)
deriving DecidableEq

/-- The run environment: the three environment variables read at lines
98-100, the listing of the `images` directory (`none` when the directory is
absent, so `os.listdir` raises), the vision oracle giving the response to a
detection request, and the write-time clock. -/
structure Env where
  s3Bucket : Option String
  dynamoTable : Option String
  branchName : Option String
  images : Option (List String)
  vision : String → Option String → RekResponse
  now : UTCTime

/-- Python `str.endswith(suffix)`: a character-wise suffix match. -/
def endswith (s suffix : String) : Bool := suffix.data.isSuffixOf s.data

/-- `os.path.basename`: the component after the last slash (character-wise). -/
def basename (p : String) : String :=
  ⟨p.data.foldl (fun acc c => if c = '/' then [] else acc ++ [c]) []⟩

/-- Lines 5-14, `upload_to_s3`: derive the namespaced key
`rekognition-input/<basename>`, upload, return the key. -/
def upload_to_s3 (image_path : String) (bucket_name : Option String) :
    List Event × String :=
  let filename := basename image_path
  let s3_key := "rekognition-input/" ++ filename
  ([Event.s3Upload image_path bucket_name s3_key], s3_key)

/-- Lines 16-27, `detect_labels`: one Rekognition request with
`MaxLabels=10`; the response comes from the environment's oracle. -/
def detect_labels (env : Env) (photo : String) (bucket : Option String) :
    List Event × RekResponse :=
  ([Event.rekognitionDetect photo bucket 10], env.vision photo bucket)

/-- Lines 33-41: the timestamp `datetime.utcnow().isoformat() + 'Z'` and the
item dictionary passed to `put_item`. -/
def mkItem (filename : String) (labels : List FmtLabel) (branch : Option String)
    (now : UTCTime) : Item :=
  { filename := filename
    labels := labels
    timestamp := now.iso ++ "Z"
    branch := branch }

/-- The names visible inside `write_to_dynamodb` at line 31: its four
parameters, the local `dynamodb` bound at line 30, and every module-level name
of the file (imports, the four functions, and the names bound by the two
top-level blocks).  The misspelling `dyanmodb` referenced at line 31 is not
among them. -/
def namesInScopeAtLine31 : List String :=
  ["filename", "labels", "table_name", "branch", "dynamodb",
   "boto3", "os", "datetime",
   "upload_to_s3", "detect_labels", "write_to_dynamodb", "main",
   "bucket_name", "table_name", "branch_name", "images_dir", "image_files",
   "image_filename", "image_path", "s3_key", "response", "formatted_labels"]

/-- Lines 29-85, `write_to_dynamodb`.  Line 30 creates the resource; line 31
evaluates `dyanmodb.Table(table_name)`, whose name lookup is modelled by the
scope check: if the name were bound, execution would build the timestamp and
item (lines 33-42), call `put_item`, and then hit the unbound name `photo` at
line 44; since it is not bound, line 31 raises `NameError` first. -/
def write_to_dynamodb (filename : String) (labels : List FmtLabel)
    (table_name : Option String) (branch : Option String) (now : UTCTime) :
    List Event × Except PyError Unit :=
  if namesInScopeAtLine31.contains "dyanmodb" then
    ([Event.dynamoResource, Event.putItem table_name (mkItem filename labels branch now)],
      Except.error (PyError.nameError "photo"))
  else
    ([Event.dynamoResource], Except.error (PyError.nameError "dyanmodb"))

/-- The comprehension body of lines 121-124, iterating left to right: each
label's `Name` and `Confidence` are read by subscript, so an absent
`Confidence` raises `KeyError` at the first offending label; a present one is
passed through as the same float. -/
def formatLabels : List RawLabel → Except PyError (List FmtLabel)
  | [] => Except.ok []
  | l :: ls =>
    match l.Confidence with
    | none => Except.error (PyError.keyError "Confidence")
    | some c =>
      match formatLabels ls with
      | Except.error e => Except.error e
      | Except.ok rest => Except.ok ({ Name := l.Name, Confidence := PyNum.float c } :: rest)

/-- Lines 121-124, `formatted_labels`: reduce `response['Labels']`. -/
def formatted_labels (response : RekResponse) : Except PyError (List FmtLabel) :=
  formatLabels response.Labels

/-- Line 104's filter predicate `f.endswith(('.jpg', '.png'))`: a
case-sensitive suffix match against exactly those two extensions. -/
def imgExt (f : String) : Bool := endswith f ".jpg" || endswith f ".png"

/-- The selector the code implements at lines 104-111: filter the listing by
`imgExt`, keep the listing order, take the first element. -/
def codeSelect (entries : List String) : Option String :=
  (entries.filter imgExt).head?

/-- Lexicographic order on character lists by code point, the order Python's
`sorted` uses on strings. -/
def lexLe : List Char → List Char → Bool
  | [], _ => true
  | _ :: _, [] => false
  | a :: as, b :: bs =>
    if a.toNat < b.toNat then true
    else if b.toNat < a.toNat then false
    else lexLe as bs

/-- Insert a string into a sorted list (ascending lexical order). -/
def insertSorted (s : String) : List String → List String
  | [] => [s]
  | t :: ts => if lexLe s.data t.data then s :: t :: ts else t :: insertSorted s ts

/-- Insertion sort on strings, ascending lexical order. -/
def sortStrings : List String → List String
  | [] => []
  | s :: ss => insertSorted s (sortStrings ss)

/-- Modelled from the spec (the claimed selection policy, for comparison with
`codeSelect`): collect entries ending in one of {.jpg, .jpeg, .png}, sort
lexically ascending, return the first. -/
def specSelect (entries : List String) : Option String :=
  (sortStrings (entries.filter
    (fun f => endswith f ".jpg" || endswith f ".jpeg" || endswith f ".png"))).head?

/-- The observable result of one run: the event trace, the arguments of the
`write_to_dynamodb` call at line 127 when it is reached (filename, labels,
table, branch), and the process outcome. -/
structure RunTrace where
  events : List Event
  writeArgs : Option (String × List FmtLabel × Option String × Option String)
  outcome : Outcome

/-- The whole program run: the first `__main__` block (lines 93-94) calls
`main` (lines 87-91), which performs one detection with hardcoded
`photo-name` / `amzn-s3-demo-bucket` and prints the result; the second
`__main__` block (lines 96-129) reads the environment, lists `images/`
(raising `FileNotFoundError` when absent), filters by `imgExt` with no sort,
exits 1 when nothing matches, and otherwise uploads the first match, detects
labels on the uploaded key, reduces them, and calls `write_to_dynamodb` with
the s3 key as the filename argument. -/
def run (env : Env) : RunTrace :=
  let (ev1, resp1) := detect_labels env "photo-name" (some "amzn-s3-demo-bucket")
  let evMain := ev1 ++ [Event.printLabelsDetected resp1]
  let bucket_name := env.s3Bucket
  let table_name := env.dynamoTable
  let branch_name := env.branchName
  match env.images with
  | none =>
    { events := evMain
      writeArgs := none
      outcome := Outcome.crashed (PyError.fileNotFoundError "images") }
  | some entries =>
    match entries.filter imgExt with
    | [] =>
      { events := evMain ++ [Event.print "No images found in images/ folder"]
        writeArgs := none
        outcome := Outcome.exited 1 }
    | image_filename :: _ =>
      let image_path := "images/" ++ image_filename
      let (ev2, s3_key) := upload_to_s3 image_path bucket_name
      let (ev3, response) := detect_labels env s3_key bucket_name
      match formatted_labels response with
      | Except.error e =>
        { events := evMain ++ ev2 ++ ev3
          writeArgs := none
          outcome := Outcome.crashed e }
      | Except.ok fmt =>
        let (ev4, res) := write_to_dynamodb s3_key fmt table_name branch_name env.now
        match res with
        | Except.error e =>
          { events := evMain ++ ev2 ++ ev3 ++ ev4
            writeArgs := some (s3_key, fmt, table_name, branch_name)
            outcome := Outcome.crashed e }
        | Except.ok _ =>
          { events := evMain ++ ev2 ++ ev3 ++ ev4 ++
              [Event.print ("Successfully processed " ++ image_filename)]
            writeArgs := some (s3_key, fmt, table_name, branch_name)
            outcome := Outcome.exited 0 }

/-! Concrete inputs used by counterexamples and witnesses. -/

/-- The confidence 87.65 of the spec's end-to-end example, as the exact
rational 1753/20. -/
def conf8765 : ℚ := Rat.mk' 1753 20 (by decide) (by decide)

/-- The single raw label of the spec's end-to-end example. -/
def catLabel : RawLabel := { Name := "Cat", Confidence := some conf8765 }

/-- A fully configured environment: both required environment values and the
branch set, the directory listing `["a.png", "b.jpg"]` of the spec's
end-to-end scenario, a vision oracle always answering with the Cat label. -/
def envFull : Env :=
  { s3Bucket := some "B"
    dynamoTable := some "T"
    branchName := some "main"
    images := some ["a.png", "b.jpg"]
    vision := fun _ _ => { Labels := [catLabel] }
    now := { iso := "2016-06-19T00:00:00" } }

/-- Like `envFull` but with the branch environment value unset. -/
def envNoBranch : Env := { envFull with branchName := none }

/-- Like `envFull` but with the bucket environment value unset. -/
def envNoBucket : Env := { envFull with s3Bucket := none }

/-- Like `envFull` but with the `images` directory absent. -/
def envNoDir : Env := { envFull with images := none }

/-- Like `envFull` but with a directory containing no matching image file. -/
def envNoMatch : Env := { envFull with images := some ["notes.txt"] }

/-! Helper lemmas characterising `write_to_dynamodb` and the four control-flow
shapes of `run`. -/

/-- `write_to_dynamodb` always raises `NameError: dyanmodb` after creating the
resource, for every input. -/
lemma write_to_dynamodb_eq (filename : String) (labels : List FmtLabel)
    (table_name branch : Option String) (now : UTCTime) :
    write_to_dynamodb filename labels table_name branch now
      = ([Event.dynamoResource], Except.error (PyError.nameError "dyanmodb")) := by
  simp [write_to_dynamodb]
  decide

/-- Shape of a run whose `images` directory is absent. -/
lemma run_dir_missing (env : Env) (h : env.images = none) :
    run env =
      { events := [Event.rekognitionDetect "photo-name" (some "amzn-s3-demo-bucket") 10,
                   Event.printLabelsDetected (env.vision "photo-name" (some "amzn-s3-demo-bucket"))]
        writeArgs := none
        outcome := Outcome.crashed (PyError.fileNotFoundError "images") } := by
  simp [run, detect_labels, h]

/-- Shape of a run whose directory exists but holds no matching image. -/
lemma run_no_images (env : Env) (entries : List String)
    (h1 : env.images = some entries) (h2 : entries.filter imgExt = []) :
    run env =
      { events := [Event.rekognitionDetect "photo-name" (some "amzn-s3-demo-bucket") 10,
                   Event.printLabelsDetected (env.vision "photo-name" (some "amzn-s3-demo-bucket")),
                   Event.print "No images found in images/ folder"]
        writeArgs := none
        outcome := Outcome.exited 1 } := by
  simp [run, detect_labels, h1, h2]

/-- Shape of a run that finds an image and whose reduction step raises. -/
lemma run_reduce_error (env : Env) (entries : List String) (f : String)
    (rest : List String) (e : PyError)
    (h1 : env.images = some entries) (h2 : entries.filter imgExt = f :: rest)
    (h3 : formatted_labels
        (env.vision ("rekognition-input/" ++ basename ("images/" ++ f)) env.s3Bucket)
      = Except.error e) :
    run env =
      { events := [Event.rekognitionDetect "photo-name" (some "amzn-s3-demo-bucket") 10,
                   Event.printLabelsDetected (env.vision "photo-name" (some "amzn-s3-demo-bucket")),
                   Event.s3Upload ("images/" ++ f) env.s3Bucket
                     ("rekognition-input/" ++ basename ("images/" ++ f)),
                   Event.rekognitionDetect
                     ("rekognition-input/" ++ basename ("images/" ++ f)) env.s3Bucket 10]
        writeArgs := none
        outcome := Outcome.crashed e } := by
  simp [run, detect_labels, upload_to_s3, h1, h2, h3]

/-- Shape of a run that finds an image and reduces its labels: the write call
is reached with the s3 key as filename argument, and crashes on the unbound
name of line 31. -/
lemma run_reduce_ok (env : Env) (entries : List String) (f : String)
    (rest : List String) (fmt : List FmtLabel)
    (h1 : env.images = some entries) (h2 : entries.filter imgExt = f :: rest)
    (h3 : formatted_labels
        (env.vision ("rekognition-input/" ++ basename ("images/" ++ f)) env.s3Bucket)
      = Except.ok fmt) :
    run env =
      { events := [Event.rekognitionDetect "photo-name" (some "amzn-s3-demo-bucket") 10,
                   Event.printLabelsDetected (env.vision "photo-name" (some "amzn-s3-demo-bucket")),
                   Event.s3Upload ("images/" ++ f) env.s3Bucket
                     ("rekognition-input/" ++ basename ("images/" ++ f)),
                   Event.rekognitionDetect
                     ("rekognition-input/" ++ basename ("images/" ++ f)) env.s3Bucket 10,
                   Event.dynamoResource]
        writeArgs := some ("rekognition-input/" ++ basename ("images/" ++ f), fmt,
          env.dynamoTable, env.branchName)
        outcome := Outcome.crashed (PyError.nameError "dyanmodb") } := by
  simp [run, detect_labels, upload_to_s3, write_to_dynamodb_eq, h1, h2, h3]

/-- Claim C1: for every input, `write_to_dynamodb` raises the unbound-name
error `dyanmodb` before `put_item` is reached, so no invocation persists a
record (no `putItem` event ever occurs in any run), the final success message
is never printed, and no run exits with code 0. -/
theorem C1_unbound_name_blocks_persistence (env : Env) (filename : String)
    (labels : List FmtLabel) (table branch : Option String) (now : UTCTime) :
    (write_to_dynamodb filename labels table branch now).2
        = Except.error (PyError.nameError "dyanmodb")
    ∧ (write_to_dynamodb filename labels table branch now).1.all
        (fun e => !e.isPutItem) = true
    ∧ (run env).events.all (fun e => !e.isPutItem) = true
    ∧ (run env).events.all (fun e => !e.isSuccessPrint) = true
    ∧ (run env).outcome ≠ Outcome.exited 0 := by
  have hrun : (run env).events.all (fun e => !e.isPutItem) = true
      ∧ (run env).events.all (fun e => !e.isSuccessPrint) = true
      ∧ (run env).outcome ≠ Outcome.exited 0 := by
    rcases hi : env.images with _ | entries
    · rw [run_dir_missing env hi]
      exact ⟨rfl, rfl, by simp⟩
    · rcases hf : entries.filter imgExt with _ | ⟨f, rest⟩
      · rw [run_no_images env entries hi hf]
        exact ⟨rfl, rfl, by simp⟩
      · cases hfl : formatted_labels
            (env.vision ("rekognition-input/" ++ basename ("images/" ++ f)) env.s3Bucket) with
        | error e =>
          rw [run_reduce_error env entries f rest e hi hf hfl]
          exact ⟨rfl, rfl, by simp⟩
        | ok fmt =>
          rw [run_reduce_ok env entries f rest fmt hi hf hfl]
          exact ⟨rfl, rfl, by simp⟩
  exact ⟨by rw [write_to_dynamodb_eq], by rw [write_to_dynamodb_eq]; rfl,
    hrun.1, hrun.2.1, hrun.2.2⟩

/-- Claim C2 (refuted; the spec is the intent, the code a slip): the reduction
of lines 121-124 passes each confidence through as the very same binary float,
and every label handed to the write call still carries a float, never an exact
decimal — no decimal conversion exists anywhere in the file. -/
theorem C2_no_decimal_conversion :
    formatted_labels { Labels := [catLabel] }
        = Except.ok [{ Name := "Cat", Confidence := PyNum.float conf8765 }]
    ∧ (PyNum.float conf8765).isDecimal = false
    ∧ (run envFull).writeArgs.map
        (fun a => a.2.1.all (fun l => !l.Confidence.isDecimal)) = some true := by
  decide

/-- Claim C3, counterexample: on the listing `["b.png", "a.jpeg"]` the claimed
selector (extensions {.jpg, .jpeg, .png}, sorted ascending) picks `a.jpeg`,
but the code's selector picks `b.png` — it neither matches `.jpeg` nor
sorts. -/
theorem C3_selector_counterexample :
    codeSelect ["b.png", "a.jpeg"] = some "b.png"
    ∧ specSelect ["b.png", "a.jpeg"] = some "a.jpeg"
    ∧ ("b.png" : String) ≠ "a.jpeg" := by
  decide

/-- Claim C3 as amended: the selector collects the entries ending in `.jpg` or
`.png` (case-sensitive, `.jpeg` not matched), keeps the directory-listing
order without sorting, and returns the first matching entry: whenever it
returns `f`, the listing splits as `pre ++ f :: post` with no match in
`pre`. -/
theorem C3_selector_amended (entries : List String) (f : String)
    (h : codeSelect entries = some f) :
    imgExt f = true
    ∧ ∃ pre post, entries = pre ++ f :: post
        ∧ pre.all (fun g => !imgExt g) = true := by
  induction entries with
  | nil => simp [codeSelect] at h
  | cons e es ih =>
    simp only [codeSelect, List.filter_cons] at h
    by_cases he : imgExt e = true
    · rw [if_pos he] at h
      simp only [List.head?_cons, Option.some.injEq] at h
      subst h
      exact ⟨he, [], es, rfl, rfl⟩
    · rw [if_neg he] at h
      obtain ⟨hf, pre, post, hsplit, hall⟩ := ih h
      have he' : imgExt e = false := by simpa using he
      exact ⟨hf, e :: pre, post, by rw [hsplit, List.cons_append],
        by simp [List.all_cons, he', hall]⟩

/-- Claim C3 amended, witness at the listing `["b.png", "a.jpeg"]`. -/
theorem C3_selector_amended_witness :
    imgExt "b.png" = true
    ∧ ∃ pre post, ["b.png", "a.jpeg"] = pre ++ "b.png" :: post
        ∧ pre.all (fun g => !imgExt g) = true :=
  C3_selector_amended ["b.png", "a.jpeg"] "b.png" (by decide)

/-- Claim C4, counterexample: in the run on `envFull` the vision service is
invoked twice (once by `main` with hardcoded values, once by the second
top-level block), not exactly once as claimed. -/
theorem C4_detect_twice_counterexample :
    ((run envFull).events.filter Event.isDetect).length = 2
    ∧ (2 : ℕ) ≠ 1 := by
  decide

/-- Claim C4 as amended: every run that finds an image invokes the vision
service exactly twice — first from `main` (lines 87-94) with the hardcoded
photo `photo-name`, bucket `amzn-s3-demo-bucket` and max-labels 10, then from
the second top-level block with the uploaded object's key, the bucket
environment value and max-labels 10. -/
theorem C4_detect_calls_amended (env : Env) (entries : List String) (f : String)
    (rest : List String) (h1 : env.images = some entries)
    (h2 : entries.filter imgExt = f :: rest) :
    (run env).events.filter Event.isDetect
      = [Event.rekognitionDetect "photo-name" (some "amzn-s3-demo-bucket") 10,
         Event.rekognitionDetect ("rekognition-input/" ++ basename ("images/" ++ f))
           env.s3Bucket 10]
    ∧ ((run env).events.filter Event.isDetect).length = 2 := by
  cases hfl : formatted_labels
      (env.vision ("rekognition-input/" ++ basename ("images/" ++ f)) env.s3Bucket) with
  | error e =>
    rw [run_reduce_error env entries f rest e h1 h2 hfl]
    exact ⟨rfl, rfl⟩
  | ok fmt =>
    rw [run_reduce_ok env entries f rest fmt h1 h2 hfl]
    exact ⟨rfl, rfl⟩

/-- Claim C4 amended, witness at `envFull`. -/
theorem C4_detect_calls_amended_witness :
    (run envFull).events.filter Event.isDetect
      = [Event.rekognitionDetect "photo-name" (some "amzn-s3-demo-bucket") 10,
         Event.rekognitionDetect
           ("rekognition-input/" ++ basename ("images/" ++ "a.png")) envFull.s3Bucket 10]
    ∧ ((run envFull).events.filter Event.isDetect).length = 2 :=
  C4_detect_calls_amended envFull ["a.png", "b.jpg"] "a.png" ["b.jpg"] rfl (by decide)

/-- Claim C5, counterexample: on the spec's end-to-end scenario (directory
`["a.png", "b.jpg"]`) the filename argument of the write call is the
namespaced key `rekognition-input/a.png`, not the basename `a.png`; and no
`putItem` event occurs, so nothing is persisted at all. -/
theorem C5_record_key_counterexample :
    (run envFull).writeArgs.map (fun a => a.1) = some "rekognition-input/a.png"
    ∧ ("rekognition-input/a.png" : String) ≠ "a.png"
    ∧ (run envFull).events.all (fun e => !e.isPutItem) = true := by
  decide

/-- Claim C5 as amended: the value passed as the record key at line 127 is the
namespaced object key `rekognition-input/<basename>` used for the upload, not
the image's basename (and the write itself never reaches `put_item`). -/
theorem C5_record_key_amended (env : Env) (entries : List String) (f : String)
    (rest : List String) (fmt : List FmtLabel)
    (h1 : env.images = some entries) (h2 : entries.filter imgExt = f :: rest)
    (h3 : formatted_labels
        (env.vision ("rekognition-input/" ++ basename ("images/" ++ f)) env.s3Bucket)
      = Except.ok fmt) :
    (run env).writeArgs
      = some ("rekognition-input/" ++ basename ("images/" ++ f), fmt,
          env.dynamoTable, env.branchName)
    ∧ (run env).events.all (fun e => !e.isPutItem) = true := by
  rw [run_reduce_ok env entries f rest fmt h1 h2 h3]
  exact ⟨rfl, rfl⟩

/-- Claim C5 amended, witness at `envFull`. -/
theorem C5_record_key_amended_witness :
    (run envFull).writeArgs
      = some ("rekognition-input/" ++ basename ("images/" ++ "a.png"),
          [{ Name := "Cat", Confidence := PyNum.float conf8765 }],
          envFull.dynamoTable, envFull.branchName)
    ∧ (run envFull).events.all (fun e => !e.isPutItem) = true :=
  C5_record_key_amended envFull ["a.png", "b.jpg"] "a.png" ["b.jpg"]
    [{ Name := "Cat", Confidence := PyNum.float conf8765 }] rfl (by decide) (by decide)

/-- Claim C6, counterexample: with the bucket environment value missing the
program does not abort before network calls — the run on `envNoBucket`
performs three network calls (two detections and one upload) and ends in the
unrelated `NameError`, not an environment-check abort. -/
theorem C6_no_abort_counterexample :
    envNoBucket.s3Bucket = none
    ∧ ((run envNoBucket).events.filter Event.isNetwork).length = 3
    ∧ (run envNoBucket).outcome = Outcome.crashed (PyError.nameError "dyanmodb") := by
  decide

/-- Claim C6 as amended: the program never checks the bucket environment
value; even when it is missing, the very first event of the run is already a
network call (the hardcoded detection in `main`), and the run's network-event
list is nonempty — there is no abort before network activity. -/
theorem C6_missing_bucket_amended (env : Env) (h : env.s3Bucket = none) :
    (run env).events.head?
      = some (Event.rekognitionDetect "photo-name" (some "amzn-s3-demo-bucket") 10)
    ∧ (run env).events.filter Event.isNetwork ≠ []
    ∧ (run env).events.all Event.uploadsNullBucket = true := by
  rcases hi : env.images with _ | entries
  · rw [run_dir_missing env hi]
    exact ⟨rfl, by simp [Event.isNetwork], rfl⟩
  · rcases hf : entries.filter imgExt with _ | ⟨f, rest⟩
    · rw [run_no_images env entries hi hf]
      exact ⟨rfl, by simp [Event.isNetwork], rfl⟩
    · cases hfl : formatted_labels
          (env.vision ("rekognition-input/" ++ basename ("images/" ++ f)) env.s3Bucket) with
      | error e =>
        rw [run_reduce_error env entries f rest e hi hf hfl]
        exact ⟨rfl, by simp [Event.isNetwork],
          by simp [Event.uploadsNullBucket, h]⟩
      | ok fmt =>
        rw [run_reduce_ok env entries f rest fmt hi hf hfl]
        exact ⟨rfl, by simp [Event.isNetwork],
          by simp [Event.uploadsNullBucket, h]⟩

/-- Claim C6 amended, witness at `envNoBucket`. -/
theorem C6_missing_bucket_amended_witness :
    (run envNoBucket).events.head?
      = some (Event.rekognitionDetect "photo-name" (some "amzn-s3-demo-bucket") 10)
    ∧ (run envNoBucket).events.filter Event.isNetwork ≠ []
    ∧ (run envNoBucket).events.all Event.uploadsNullBucket = true :=
  C6_missing_bucket_amended envNoBucket rfl

/-- Claim C7, counterexample: with the branch environment value unset, the
branch value flowing into the write call is `None` (null), not the placeholder
`"unknown"`. -/
theorem C7_branch_null_counterexample :
    envNoBranch.branchName = none
    ∧ (run envNoBranch).writeArgs.map (fun a => a.2.2.2) = some none
    ∧ (none : Option String) ≠ some "unknown" := by
  decide

/-- Claim C7 as amended: when the branch environment value is unset, the
branch passed into the record write is null (`None`); there is no placeholder
default anywhere in the code. -/
theorem C7_branch_amended (env : Env) (entries : List String) (f : String)
    (rest : List String) (fmt : List FmtLabel)
    (hb : env.branchName = none)
    (h1 : env.images = some entries) (h2 : entries.filter imgExt = f :: rest)
    (h3 : formatted_labels
        (env.vision ("rekognition-input/" ++ basename ("images/" ++ f)) env.s3Bucket)
      = Except.ok fmt) :
    (run env).writeArgs.map (fun a => a.2.2.2) = some none := by
  rw [run_reduce_ok env entries f rest fmt h1 h2 h3]
  simp [hb]

/-- Claim C7 amended, witness at `envNoBranch`. -/
theorem C7_branch_amended_witness :
    (run envNoBranch).writeArgs.map (fun a => a.2.2.2) = some none :=
  C7_branch_amended envNoBranch ["a.png", "b.jpg"] "a.png" ["b.jpg"]
    [{ Name := "Cat", Confidence := PyNum.float conf8765 }] rfl rfl (by decide) (by decide)

/-- Claim C8, counterexample: a raw label without a `Confidence` field makes
the reduction raise `KeyError` — it does not default to 0.0 as claimed. -/
theorem C8_missing_confidence_counterexample :
    formatted_labels { Labels := [{ Name := "X", Confidence := none }] }
        = Except.error (PyError.keyError "Confidence")
    ∧ (Except.error (PyError.keyError "Confidence") : Except PyError (List FmtLabel))
        ≠ Except.ok [{ Name := "X", Confidence := PyNum.float 0 }] := by
  decide

/-- All labels of a list carrying a confidence, `formatLabels` succeeds and
passes name and confidence through unchanged. -/
lemma formatLabels_all_some (ls : List RawLabel)
    (h : ls.all (fun l => l.Confidence.isSome) = true) :
    formatLabels ls = Except.ok (ls.map (fun l =>
      { Name := l.Name, Confidence := PyNum.float (l.Confidence.getD 0) })) := by
  induction ls with
  | nil => rfl
  | cons l ls ih =>
    rw [List.all_cons, Bool.and_eq_true] at h
    obtain ⟨c, hc⟩ := Option.isSome_iff_exists.mp h.1
    simp [formatLabels, hc, ih h.2]

/-- Claim C8 as amended: for a raw response whose every label carries a
`Confidence`, the reduction yields exactly one `{Name, Confidence}` pair per
raw label, with the confidence preserved as the same float — the output
length equals N; when a `Confidence` is absent the reduction raises `KeyError`
instead of defaulting to 0.0. -/
theorem C8_reduction_amended (resp : RekResponse)
    (h : resp.Labels.all (fun l => l.Confidence.isSome) = true) :
    formatted_labels resp = Except.ok (resp.Labels.map (fun l =>
        { Name := l.Name, Confidence := PyNum.float (l.Confidence.getD 0) }))
    ∧ (resp.Labels.map (fun l =>
        ({ Name := l.Name, Confidence := PyNum.float (l.Confidence.getD 0) } : FmtLabel))).length
      = resp.Labels.length :=
  ⟨formatLabels_all_some resp.Labels h, by simp⟩

/-- Claim C8 amended, witness at the one-label Cat response. -/
theorem C8_reduction_amended_witness :
    formatted_labels { Labels := [catLabel] }
        = Except.ok (([catLabel] : List RawLabel).map (fun l =>
            { Name := l.Name, Confidence := PyNum.float (l.Confidence.getD 0) }))
    ∧ (([catLabel] : List RawLabel).map (fun l =>
        ({ Name := l.Name, Confidence := PyNum.float (l.Confidence.getD 0) } : FmtLabel))).length
      = ([catLabel] : List RawLabel).length :=
  C8_reduction_amended { Labels := [catLabel] } (by decide)

/-- Claim C9: an absent `images` directory makes the run fail with the
directory-not-found condition (`os.listdir` raises `FileNotFoundError`), while
an existing directory with zero matching entries makes it print the distinct
"No images found" message and exit 1; the two conditions differ. -/
theorem C9_failure_conditions (env : Env) (entries : List String) :
    (env.images = none →
        (run env).outcome = Outcome.crashed (PyError.fileNotFoundError "images"))
    ∧ (env.images = some entries → entries.filter imgExt = [] →
        (run env).outcome = Outcome.exited 1
        ∧ Event.print "No images found in images/ folder" ∈ (run env).events)
    ∧ Outcome.crashed (PyError.fileNotFoundError "images") ≠ Outcome.exited 1 := by
  refine ⟨fun h => by rw [run_dir_missing env h], fun h1 h2 => ?_, by simp⟩
  rw [run_no_images env entries h1 h2]
  exact ⟨rfl, by simp⟩

/-- Claim C9, witness at `envNoDir` (absent directory) and `envNoMatch`
(directory without matching files). -/
theorem C9_failure_conditions_witness :
    (run envNoDir).outcome = Outcome.crashed (PyError.fileNotFoundError "images")
    ∧ ((run envNoMatch).outcome = Outcome.exited 1
        ∧ Event.print "No images found in images/ folder" ∈ (run envNoMatch).events)
    ∧ Outcome.crashed (PyError.fileNotFoundError "images") ≠ Outcome.exited 1 :=
  ⟨(C9_failure_conditions envNoDir []).1 rfl,
   (C9_failure_conditions envNoMatch ["notes.txt"]).2.1 rfl (by decide),
   (C9_failure_conditions envNoDir []).2.2⟩

/-- Claim C10: the timestamp of the item built by `write_to_dynamodb` (line
33) is the write-time UTC clock's ISO-8601 string with a literal 'Z'
appended: it equals `isoformat ++ "Z"` and its last character is 'Z'. -/
theorem C10_timestamp_format (filename : String) (labels : List FmtLabel)
    (branch : Option String) (now : UTCTime) :
    (mkItem filename labels branch now).timestamp = now.iso ++ "Z"
    ∧ ((mkItem filename labels branch now).timestamp).data.getLast? = some 'Z' :=
  ⟨rfl, by simp [mkItem]⟩

end AnalyzeImage
